import Mathlib

attribute [local semireducible] Rat.mul Rat.inv Rat.add Rat.sub

set_option maxRecDepth 8000

/-!
Verification development for the S&P 500 snapshot/scoring service
(`app.py`, `fetch_sp500.py`, `fix_local_json.py`).

Shallow embedding conventions:
* Python floats are modelled as `ℚ` (the pipeline stores values rounded to two
  decimals, so all values of interest are decimal rationals); `None` is `Option`.
* Python truthiness on numbers (`x or 0`, `if x:`) is modelled explicitly:
  `None` and `0` are falsy.
* The single arithmetic operation in the scoring engine that can raise
  (`Volume / (1 + VolChange1D/100)` with a zero divisor) is modelled in
  `Except`; the surrounding `try/except` is the `.error → (0, "ERROR")` catch.
* The standard deviation used for 6-month volatility involves an irrational
  square root; its numeric value is abstracted as a function parameter
  (`stdFn`), since no statement here depends on that value.
-/

/-- Python truthiness-based defaulting `row.get(k) or 0`: `None` and `0` both
give `0`, any other number gives itself. -/
def orZ (o : Option ℚ) : ℚ := o.getD 0

/-- Python truthiness of an optional number: `None` and `0` are falsy. -/
def truthyQ (o : Option ℚ) : Bool :=
  match o with
  | none => false
  | some x => x != 0

/-- Python `round` to an integer (banker's rounding: halves go to even). -/
def pyRoundInt (q : ℚ) : ℤ :=
  let f := ⌊q⌋
  let frac := q - f
  if frac < 1/2 then f
  else if 1/2 < frac then f + 1
  else if f % 2 = 0 then f else f + 1

/-- Python `round(q, 2)` on exact decimal inputs. -/
def pyRound2 (q : ℚ) : ℚ := (pyRoundInt (q * 100) : ℚ) / 100

/-- Python `int()` truncation toward zero. -/
def intTrunc (q : ℚ) : ℤ := if 0 ≤ q then ⌊q⌋ else -⌊-q⌋

/-- Mean of a pandas series (`.mean()`), on its non-null values. -/
def meanQ (l : List ℚ) : ℚ := l.sum / (l.length : ℚ)

/-- `series.tail(k)`: the last `k` elements. -/
def lastN (k : Nat) (l : List ℚ) : List ℚ := l.drop (l.length - k)

/-- `series.iloc[-k]` (1-based from the end), defaulting to 0 out of range. -/
def ilocNeg (l : List ℚ) (k : Nat) : ℚ := l.getD (l.length - k) 0

/-- `series.pct_change().dropna()`: successive ratios minus one. -/
def pctChange (l : List ℚ) : List ℚ :=
  (l.zip l.tail).map (fun p => p.2 / p.1 - 1)

/-- The date part of a `"YYYY-MM-DD HH:MM:SS"` stamp: `s.split(' ')[0]`. -/
def datePart (s : String) : String :=
  String.mk (s.data.takeWhile (fun c => c != ' '))

/-- `str.split(sep)` on character lists (`"".split(sep) == [""]`). -/
def splitOnChar (sep : Char) : List Char → List (List Char)
  | [] => [[]]
  | c :: cs =>
    let r := splitOnChar sep cs
    if c = sep then [] :: r
    else
      match r with
      | [] => [[c]]
      | h :: t => (c :: h) :: t

/-- The numeric value of one decimal digit character. -/
def digitVal (c : Char) : Option ℕ :=
  if c = '0' then some 0 else if c = '1' then some 1
  else if c = '2' then some 2 else if c = '3' then some 3
  else if c = '4' then some 4 else if c = '5' then some 5
  else if c = '6' then some 6 else if c = '7' then some 7
  else if c = '8' then some 8 else if c = '9' then some 9 else none

/-- `int(field)` on a non-empty all-digit field, else `none`. -/
def digitsToNat (cs : List Char) : Option ℕ :=
  match cs with
  | [] => none
  | _ =>
    cs.foldl (fun acc c =>
      match acc, digitVal c with
      | some n, some v => some (n * 10 + v)
      | _, _ => none) (some 0)

/-- Days since 1970-01-01 of a proleptic Gregorian date (civil-days formula);
used to model `datetime.date` subtraction in whole days. -/
def daysFromCivil (y m d : ℤ) : ℤ :=
  let y2 := if m ≤ 2 then y - 1 else y
  let era := (if 0 ≤ y2 then y2 else y2 - 399) / 400
  let yoe := y2 - era * 400
  let mp := if 2 < m then m - 3 else m + 9
  let doy := (153 * mp + 2) / 5 + d - 1
  let doe := yoe * 365 + yoe / 4 - yoe / 100 + doy
  era * 146097 + doe - 719468

/-- `datetime.datetime.strptime(s, "%Y-%m-%d").date()` as a day number, `none`
when parsing fails (the code catches the `ValueError`). -/
def parseISO (s : String) : Option ℤ :=
  match splitOnChar '-' s.data with
  | [ys, ms, ds] =>
    match digitsToNat ys, digitsToNat ms, digitsToNat ds with
    | some y, some m, some d =>
      if 1 ≤ m ∧ m ≤ 12 ∧ 1 ≤ d ∧ d ≤ 31 then
        some (daysFromCivil (y : ℤ) (m : ℤ) (d : ℤ))
      else none
    | _, _, _ => none
  | _ => none

/-- Insert into a sorted list (ascending). -/
def insertSorted (x : ℚ) : List ℚ → List ℚ
  | [] => [x]
  | y :: ys => if x ≤ y then x :: y :: ys else y :: insertSorted x ys

/-- Insertion sort, ascending. -/
def sortQ (l : List ℚ) : List ℚ := l.foldr insertSorted []

/-- pandas `Series.median()` over the non-null values: middle element, or the
mean of the two middle elements; `None` (NaN) on an empty series. -/
def medianQ (l : List ℚ) : Option ℚ :=
  let s := sortQ l
  let n := s.length
  if n = 0 then none
  else if n % 2 = 1 then some (s.getD (n / 2) 0)
  else some ((s.getD (n / 2 - 1) 0 + s.getD (n / 2) 0) / 2)

/-- Chunking worker, structurally recursive on a fuel bound (`fuel` is always
at least the list length, so the `0, l` fallback is never reached from
`chunkList`). -/
def chunkGo (n : Nat) : Nat → List α → List (List α)
  | _, [] => []
  | 0, l => [l]
  | fuel + 1, x :: xs => (x :: xs.take (n - 1)) :: chunkGo n fuel (xs.drop (n - 1))

/-- `tickers[i:i+n]` batching: split a list into consecutive chunks of `n`
(`for i in range(0, len(tickers), batch_size)`). -/
def chunkList (n : Nat) (l : List α) : List (List α) := chunkGo n l.length l

/-!
## Scoring engine (`calculate_score` in `app.py`, identical to
`calculate_score_v3_1` in `fix_local_json.py`)

A scoring row as seen by `calculate_score`: the merged DataFrame row. All
numeric fields are optional (`None` for absent metrics).
-/

structure Row where
  symbol : String
  price : Option ℚ
  ma50 : Option ℚ
  ma200 : Option ℚ
  trendStrength : Option ℚ
  ret1d : Option ℚ
  ret5d : Option ℚ
  ret1m : Option ℚ
  ret6m : Option ℚ
  vol6m : Option ℚ
  volume : Option ℚ
  volChg1d : Option ℚ
  volChg5d : Option ℚ
  marketCap : Option ℚ
  peRatio : Option ℚ
  sector : Option String
  earningsDate : Option String
deriving DecidableEq

/-- Point accumulation (blocks A-D of `calculate_score`), before the
`max(0, score)` clamp. -/
def scorePoints (r : Row) (peMed volMed : String → Option ℚ) : ℤ :=
  let price := orZ r.price
  let ma50 := orZ r.ma50
  let ma200 := orZ r.ma200
  let trendStrength := orZ r.trendStrength
  let trendPts : ℤ :=
    if ma200 ≤ price then
      (if ma50 < price then 8 else 0) + (if ma200 < ma50 then 8 else 0) +
      (if ma200 < price then 8 else 0) + (if 0 < trendStrength then 11 else 0)
    else 0
  let ret5d := orZ r.ret5d
  let ret1m := orZ r.ret1m
  let ret6m := orZ r.ret6m
  let momPts : ℤ :=
    (if 0 < ret6m then 5 else 0) + (if 0 < ret1m then 5 else 0) +
    (if 0 < ret5d then 5 else 0) +
    (if ret1m < ret6m ∧ ret5d < ret1m then 10 else 0) +
    (if ret5d < 0 ∧ 0 < ret1m then -5 else 0)
  let ret1d := orZ r.ret1d
  let vol1dRatio := 1 + orZ r.volChg1d / 100
  let vol5dRatio := 1 + orZ r.volChg5d / 100
  let volPts : ℤ :=
    (if 12/10 ≤ vol5dRatio then 5 else 0) + (if 15/10 ≤ vol1dRatio then 10 else 0) +
    (if 0 < ret1d ∧ 0 < orZ r.volChg1d then 5 else 0) +
    (if ret1d < 0 ∧ 2 ≤ vol1dRatio then -10 else 0)
  let mcap := orZ r.marketCap
  let mcapPts : ℤ := if 10000000000 < mcap then 5 else 0
  let medPe := r.sector.bind peMed
  let pePts : ℤ :=
    if truthyQ r.peRatio ∧ truthyQ medPe then
      if orZ r.peRatio < orZ medPe then 5
      else if orZ medPe < orZ r.peRatio ∧ (0 < ret1m ∨ 0 < ret6m) then 3
      else 0
    else 0
  let medVol := r.sector.bind volMed
  let volRiskPts : ℤ :=
    if truthyQ r.vol6m ∧ truthyQ medVol ∧ orZ r.vol6m < orZ medVol then 7 else 0
  trendPts + momPts + volPts + mcapPts + pePts + volRiskPts

/-- `final_points = round(max(0, score))` (the score is already an integer). -/
def finalPts (r : Row) (peMed volMed : String → Option ℚ) : ℤ :=
  max 0 (scorePoints r peMed volMed)

/-- Implied 20-day average volume of decision step 1:
`Volume / (1 + VolChange1D/100)` when `Volume` is truthy and `VolChange1D` is
not `None`, else `0`. A zero divisor raises `ZeroDivisionError`, modelled as
`Except.error`. -/
def avgVol20E (r : Row) : Except Unit ℚ :=
  if truthyQ r.volume ∧ r.volChg1d ≠ none then
    let d := 1 + orZ r.volChg1d / 100
    if d = 0 then Except.error () else Except.ok (orZ r.volume / d)
  else Except.ok 0

/-- Step 3 test: an earnings date string is present (non-empty), parses, and
falls within `[-1, +7]` days of today. -/
def earningsFreezeB (r : Row) (today : ℤ) : Bool :=
  match r.earningsDate with
  | none => false
  | some s =>
    if s = "" then false
    else match parseISO s with
      | some d => decide (-1 ≤ d - today) && decide (d - today ≤ 7)
      | none => false

/-- Steps 5/6 earnings distance: days to the earnings date, `999` when absent
or unparseable. -/
def edateDist (r : Row) (today : ℤ) : ℤ :=
  match r.earningsDate with
  | none => 999
  | some s =>
    if s = "" then 999
    else match parseISO s with
      | some d => d - today
      | none => 999

/-- Decision step 1 condition (hard rejection), given the implied 20-day
average volume. -/
def RejectCond (r : Row) (avgVol : ℚ) : Prop :=
  orZ r.marketCap < 2000000000 ∨ avgVol < 500000 ∨ orZ r.price < 10

/-- Decision step 2 condition (hard sell). -/
def SellCond (r : Row) (peMed volMed : String → Option ℚ) : Prop :=
  orZ r.price < orZ r.ma200 ∨
  (orZ r.ret1d < 0 ∧ 2 ≤ 1 + orZ r.volChg1d / 100) ∨
  orZ r.trendStrength < 0 ∨ finalPts r peMed volMed < 45

instance (r : Row) (v : ℚ) : Decidable (RejectCond r v) := by
  unfold RejectCond; infer_instance

instance (r : Row) (pm vm : String → Option ℚ) : Decidable (SellCond r pm vm) := by
  unfold SellCond; infer_instance

/-- Decision steps 1-7 of `calculate_score` (first match wins). -/
def decisionOf (r : Row) (peMed volMed : String → Option ℚ) (avgVol : ℚ)
    (today : ℤ) : String :=
  let pts := finalPts r peMed volMed
  if RejectCond r avgVol then "Rejected – Universal Filter"
  else if SellCond r peMed volMed then "Sell"
  else if earningsFreezeB r today then "Hold"
  else if pts < 65 ∨ (orZ r.ret5d < 0 ∧ orZ r.ret1m < 0) then "Reduce"
  else if 80 ≤ pts ∧ orZ r.ma50 < orZ r.price ∧ orZ r.ma200 < orZ r.price ∧
          12/10 ≤ 1 + orZ r.volChg5d / 100 ∧ 0 < orZ r.ret6m ∧
          7 < edateDist r today then "Strong Buy"
  else if 70 ≤ pts ∧ pts ≤ 79 ∧ orZ r.ma50 < orZ r.price ∧
          orZ r.ma200 < orZ r.price ∧ 0 < orZ r.ret6m ∧
          7 < edateDist r today then "Buy (Small)"
  else "Hold"

/-- `calculate_score` body before the outer `try/except`: the only raising
operation is the implied-average-volume division of step 1. -/
def calculate_score_inner (r : Row) (peMed volMed : String → Option ℚ)
    (today : ℤ) : Except Unit (ℤ × String) :=
  match avgVol20E r with
  | Except.error e => Except.error e
  | Except.ok av => Except.ok (finalPts r peMed volMed, decisionOf r peMed volMed av today)

/-- `calculate_score(row, sector_pe_medians, sector_vol_medians)` with its
outer exception handler: any error degrades to `(0, "ERROR")`. -/
def calculate_score (r : Row) (peMed volMed : String → Option ℚ)
    (today : ℤ) : ℤ × String :=
  match calculate_score_inner r peMed volMed today with
  | Except.error _ => (0, "ERROR")
  | Except.ok p => p

/-- `final_df.apply(lambda r: calculate_score(...), axis=1)`: scoring a whole
batch maps the caught scorer over every row. -/
def scoreBatch (rows : List Row) (peMed volMed : String → Option ℚ)
    (today : ℤ) : List (ℤ × String) :=
  rows.map (fun r => calculate_score r peMed volMed today)

/-!
## Fetch orchestrator (`fetch_and_update_data` in `app.py`) and refresh
trigger (`api_refresh`)

The network is abstracted as two oracle functions: `histF` models
`yf.download(batch, ...)` (returning `none` when the batch download raises,
and per-symbol `none` when a symbol is missing from the result), and `fundF`
models the per-symbol `.info` fetch of `get_batch_stock_info` (`none` when it
raises, in which case the code appends an `"N/A"`/null record).
-/

/-- Price/volume history of one symbol after `.dropna()`. -/
structure Hist where
  closes : List ℚ
  volumes : List ℚ
deriving DecidableEq

/-- One row of `ma_rows`: the technical metrics of one symbol. -/
structure MaRow where
  symbol : String
  ma50 : ℚ
  ma200 : ℚ
  ret1d : Option ℚ
  ret5d : Option ℚ
  ret1m : Option ℚ
  ret6m : Option ℚ
  vol6m : Option ℚ
  volume : ℤ
  volChg1d : Option ℚ
  volChg5d : Option ℚ
deriving DecidableEq

/-- Fundamental data of one symbol extracted from `.info`. -/
structure Fund where
  name : String
  sector : String
  industry : String
  marketCap : Option ℚ
  peRatio : Option ℚ
  price : Option ℚ
  earningsDate : Option String
deriving DecidableEq

/-- One record of the persisted snapshot (`sp500_data.json` as written by
`fetch_and_update_data`; `lastUpdated` is optional because `api_refresh` reads
it back with `.get('LastUpdated')`). -/
structure FinalRec where
  symbol : String
  name : String
  sector : String
  industry : String
  price : Option ℚ
  ma50 : ℚ
  ma200 : ℚ
  trendStrength : Option ℚ
  ret1d : Option ℚ
  ret5d : Option ℚ
  ret1m : Option ℚ
  ret6m : Option ℚ
  vol6m : Option ℚ
  volume : ℤ
  volChg1d : Option ℚ
  volChg5d : Option ℚ
  marketCap : Option ℚ
  peRatio : Option ℚ
  earningsDate : Option String
  score : ℤ
  decision : String
  lastUpdated : Option String
deriving DecidableEq

/-- The per-symbol body of the OHLCV loop of `fetch_and_update_data`: requires
at least 200 closes and 20 volume points (`if len(close) < 200 or
len(volume) < 20: continue`), then computes the moving averages, returns,
volatility and volume metrics, all rounded to two decimals. `stdFn` stands for
`daily_rets.std() * 252**0.5` (irrational square root abstracted). -/
def processHist (stdFn : List ℚ → ℚ) (symbol : String) (h : Hist) : Option MaRow :=
  if h.closes.length < 200 ∨ h.volumes.length < 20 then none
  else
    let close := h.closes
    let ma50 := meanQ (lastN 50 close)
    let ma200 := meanQ (lastN 200 close)
    let ret1d := if 2 ≤ close.length then some ((ilocNeg close 1 / ilocNeg close 2 - 1) * 100) else none
    let ret5d := if 6 ≤ close.length then some ((ilocNeg close 1 / ilocNeg close 6 - 1) * 100) else none
    let ret1m := if 21 ≤ close.length then some ((ilocNeg close 1 / ilocNeg close 21 - 1) * 100) else none
    let ret6m := if 126 ≤ close.length then some ((ilocNeg close 1 / ilocNeg close 126 - 1) * 100) else none
    let vol6m := if 126 ≤ close.length then some (stdFn (pctChange (lastN 126 close)) * 100) else none
    let avgVol20 := meanQ (lastN 20 h.volumes)
    let currentVol := ilocNeg h.volumes 1
    let avgVol5 := meanQ (lastN 5 h.volumes)
    let volChg1d := if 0 < avgVol20 then some ((currentVol / avgVol20 - 1) * 100) else none
    let volChg5d := if 0 < avgVol20 then some ((avgVol5 / avgVol20 - 1) * 100) else none
    some { symbol := symbol
           ma50 := pyRound2 ma50
           ma200 := pyRound2 ma200
           ret1d := ret1d.map pyRound2
           ret5d := ret5d.map pyRound2
           ret1m := ret1m.map pyRound2
           ret6m := ret6m.map pyRound2
           vol6m := vol6m.map pyRound2
           volume := intTrunc currentVol
           volChg1d := volChg1d.map pyRound2
           volChg5d := volChg5d.map pyRound2 }

/-- `get_batch_stock_info` per symbol: on an exception the code appends a
record with `"N/A"` descriptive fields and null numerics. -/
def fundOf (fundF : String → Option Fund) (s : String) : Fund :=
  match fundF s with
  | some f => f
  | none => { name := "N/A", sector := "N/A", industry := "N/A",
              marketCap := none, peRatio := none, price := none,
              earningsDate := none }

/-- `final_df['Trend Strength']`: `round(((ma50/ma200)-1)*100, 2)` when the
stored (rounded) 200-day MA is truthy and non-zero, else `None`. -/
def trendOf (m : MaRow) : Option ℚ :=
  if m.ma200 = 0 then none else some (pyRound2 ((m.ma50 / m.ma200 - 1) * 100))

/-- The merged row (`ma_df` left-joined with `info_df` on symbol, plus the
derived trend strength) as the scoring engine sees it. -/
def rowOfMerged (m : MaRow) (f : Fund) : Row :=
  { symbol := m.symbol, price := f.price, ma50 := some m.ma50,
    ma200 := some m.ma200, trendStrength := trendOf m,
    ret1d := m.ret1d, ret5d := m.ret5d, ret1m := m.ret1m, ret6m := m.ret6m,
    vol6m := m.vol6m, volume := some (m.volume : ℚ),
    volChg1d := m.volChg1d, volChg5d := m.volChg5d,
    marketCap := f.marketCap, peRatio := f.peRatio,
    sector := some f.sector, earningsDate := f.earningsDate }

/-- Assemble one final record: score the merged row and stamp `LastUpdated`
with the current timestamp (`datetime.datetime.now().strftime(...)`). -/
def buildFinal (m : MaRow) (f : Fund) (peMed volMed : String → Option ℚ)
    (today : ℤ) (now : String) : FinalRec :=
  let sd := calculate_score (rowOfMerged m f) peMed volMed today
  { symbol := m.symbol, name := f.name, sector := f.sector,
    industry := f.industry, price := f.price, ma50 := m.ma50, ma200 := m.ma200,
    trendStrength := trendOf m, ret1d := m.ret1d, ret5d := m.ret5d,
    ret1m := m.ret1m, ret6m := m.ret6m, vol6m := m.vol6m, volume := m.volume,
    volChg1d := m.volChg1d, volChg5d := m.volChg5d, marketCap := f.marketCap,
    peRatio := f.peRatio, earningsDate := f.earningsDate,
    score := sd.1, decision := sd.2, lastUpdated := some now }

/-- The `ma_rows` accumulated by the OHLCV phase: tickers are split into
batches of 50; each batch is downloaded once (a failed batch contributes
nothing); within a batch, symbols missing from the result or with too little
history are skipped. -/
def maRowsOf (tickers : List String)
    (histF : List String → Option (String → Option Hist))
    (stdFn : List ℚ → ℚ) : List MaRow :=
  (chunkList 50 tickers).flatMap (fun b =>
    match histF b with
    | none => []
    | some f => b.filterMap (fun s => (f s).bind (processHist stdFn s)))

/-- `fetch_and_update_data`, returning the resulting snapshot together with
the log of batch download calls issued (each batch of 50 is attempted exactly
once, with no retry). If no MA data was found the function returns early with
status `error` and the data file is left untouched (`cache`). Otherwise
fundamentals are fetched, sector medians computed over the merged frame,
every row scored, and the whole file rewritten with the new records in
processing order. -/
def fetch_and_update_data (tickers : List String)
    (histF : List String → Option (String → Option Hist))
    (fundF : String → Option Fund) (stdFn : List ℚ → ℚ)
    (today : ℤ) (now : String) (cache : List FinalRec) :
    List FinalRec × List (List String) :=
  let batches := chunkList 50 tickers
  let maRows := maRowsOf tickers histF stdFn
  if maRows.isEmpty then (cache, batches)
  else
    let merged := maRows.map (fun m => (m, fundOf fundF m.symbol))
    let peMed : String → Option ℚ := fun sec =>
      medianQ (merged.filterMap (fun p => if p.2.sector = sec then p.2.peRatio else none))
    let volMed : String → Option ℚ := fun sec =>
      medianQ (merged.filterMap (fun p => if p.2.sector = sec then p.1.vol6m else none))
    (merged.map (fun p => buildFinal p.1 p.2 peMed volMed today now), batches)

/-- The "already have data for today" check of `api_refresh`: the snapshot is
non-empty and the date part of the FIRST record's `LastUpdated` equals today's
ISO date. -/
def alreadyCurrent (data : List FinalRec) (todayIso : String) : Bool :=
  match data with
  | [] => false
  | r :: _ =>
    match r.lastUpdated with
    | none => false
    | some lu => datePart lu == todayIso

/-- `api_refresh`: when not forced and the snapshot is already current the
call short-circuits (no fetch calls, snapshot unchanged); otherwise the full
`fetch_and_update_data` pipeline runs on the whole universe. -/
def api_refresh (force : Bool) (data : List FinalRec) (todayIso : String)
    (tickers : List String)
    (histF : List String → Option (String → Option Hist))
    (fundF : String → Option Fund) (stdFn : List ℚ → ℚ)
    (today : ℤ) (now : String) : List FinalRec × List (List String) :=
  if !force && alreadyCurrent data todayIso then (data, [])
  else fetch_and_update_data tickers histF fundF stdFn today now data

/-- The spec's "a record exists and its last-updated date equals today",
read off the first record only (what the code actually checks). -/
def FirstRecCurrent (data : List FinalRec) (todayIso : String) : Prop :=
  ∃ r l lu, data = r :: l ∧ r.lastUpdated = some lu ∧ datePart lu = todayIso

/-- Lexicographic order on character lists by code point (the standard string
order; on ISO `YYYY-MM-DD` strings this is chronological order). -/
def strLt : List Char → List Char → Bool
  | [], [] => false
  | [], _ :: _ => true
  | _ :: _, [] => false
  | c :: cs, d :: ds =>
    if c.toNat < d.toNat then true
    else if d.toNat < c.toNat then false
    else strLt cs ds

/-- The latest last-updated date present anywhere in the snapshot (the spec's
"most recent update date"). -/
def mostRecentDate (data : List FinalRec) : Option String :=
  data.foldl (fun acc r =>
    match r.lastUpdated with
    | none => acc
    | some lu =>
      let d := datePart lu
      match acc with
      | none => some d
      | some m => if strLt m.data d.data then some d else some m) none

/-!
## Standalone fetcher (`get_stock_data` in `fetch_sp500.py`)
-/

/-- One record as written by `fetch_sp500.py`. -/
structure SRec where
  symbol : String
  name : String
  price : ℚ
  ma50 : ℚ
  ma200 : Option ℚ
  trendStrength : Option ℚ
  peRatio : Option ℚ
  marketCap : Option ℚ
  sector : String
  industry : String
  lastUpdated : String
deriving DecidableEq

/-- `get_stock_data`: fails (returns `None`) when the history has fewer than
50 closes; the 200-day MA and trend strength are computed only when 200 days
exist (and are also dropped by the truthiness checks when exactly zero);
fundamentals are best-effort inputs. -/
def get_stock_data (symbol name sector industry : String) (closes : List ℚ)
    (pe mcap : Option ℚ) (todayIso : String) : Option SRec :=
  if closes.length < 50 then none
  else
    let currentPrice := ilocNeg closes 1
    let ma50 := meanQ (lastN 50 closes)
    let ma200 : Option ℚ :=
      if 200 ≤ closes.length then some (meanQ (lastN 200 closes)) else none
    let trend : Option ℚ :=
      match ma200 with
      | some m => if m = 0 then none else some (ma50 / m - 1)
      | none => none
    some { symbol := symbol, name := name,
           price := pyRound2 currentPrice,
           ma50 := pyRound2 ma50,
           ma200 := match ma200 with
             | some m => if m = 0 then none else some (pyRound2 m)
             | none => none,
           trendStrength := match trend with
             | some t => if t = 0 then none else some (pyRound2 (t * 100))
             | none => none,
           peRatio := match pe with
             | some p => if p = 0 then none else some (pyRound2 p)
             | none => none,
           marketCap := mcap, sector := sector, industry := industry,
           lastUpdated := todayIso }

/-!
## Sector aggregation (`calculate_sector_data` in `app.py`)

The weighted P/E of one sector group, over the group's `(P/E, Market Cap)`
pairs.
-/

/-- `group.dropna(subset=['P/E Ratio', 'Market Cap'])`: the sub-group where
both fields are non-null. -/
def peSubset (grp : List (Option ℚ × Option ℚ)) : List (ℚ × ℚ) :=
  grp.filterMap (fun x =>
    match x with
    | (some p, some m) => some (p, m)
    | _ => none)

/-- `sum([x for x in group['Market Cap'] if x is not None])` as the code
executes it: `calculate_sector_data` builds its DataFrame from the JSON data,
so a null market cap sits in the float64 column as NaN, which passes the
`is not None` filter and poisons the whole sum to NaN — modelled as `none`
(NaN absorbs through `+`). In the corner case where every market cap of the
whole dataset is null the column stays object-typed, the filter drops the
`None`s and the sum is `0.0`; in both renderings the `total_mcap > 0` guard
below is False, so `weighted_pe` is unaffected by this corner. -/
def totalMcap (grp : List (Option ℚ × Option ℚ)) : Option ℚ :=
  (grp.map Prod.snd).foldr
    (fun x acc =>
      match x with
      | none => none
      | some a => acc.map (fun b => a + b)) (some 0)

/-- The code's `total_mcap > 0` test: False when the sum is NaN-poisoned. -/
def mcapPos (grp : List (Option ℚ × Option ℚ)) : Bool :=
  match totalMcap grp with
  | some t => decide (0 < t)
  | none => false

/-- The unrounded `(pe_group['P/E Ratio'] * pe_group['Market Cap']).sum() /
pe_group['Market Cap'].sum()` (`pe_group` is NaN-free after `dropna`). -/
def weightedPeRaw (grp : List (Option ℚ × Option ℚ)) : ℚ :=
  ((peSubset grp).map (fun pm => pm.1 * pm.2)).sum / ((peSubset grp).map Prod.snd).sum

/-- The `"Weighted P/E"` value of one sector summary: computed only when the
both-non-null subset is non-empty and `total_mcap > 0` holds (which fails
when any null market cap has poisoned the sum), then emitted as
`round(weighted_pe, 2) if weighted_pe ... else None` (so an exactly-zero
weighted P/E also becomes null). -/
def weighted_pe (grp : List (Option ℚ × Option ℚ)) : Option ℚ :=
  if ¬(peSubset grp).isEmpty ∧ mcapPos grp then
    let w := weightedPeRaw grp
    if w = 0 then none else some (pyRound2 w)
  else none

/-!
## NaN sanitization (`sanitize_data` in `app.py`)

A JSON-like value tree; `nan` is a float NaN occurrence, distinct from `null`.
-/

mutual
inductive JVal where
  | nullV : JVal
  | boolV : Bool → JVal
  | numV : ℚ → JVal
  | nanV : JVal
  | strV : String → JVal
  | arrV : JArr → JVal
  | objV : JObj → JVal

inductive JArr where
  | nil : JArr
  | cons : JVal → JArr → JArr

inductive JObj where
  | nil : JObj
  | cons : String → JVal → JObj → JObj
end

mutual
/-- `sanitize_data`: recursively replace every float NaN with `None`; every
other value is returned unchanged. -/
def sanitize_data : JVal → JVal
  | JVal.nullV => JVal.nullV
  | JVal.boolV b => JVal.boolV b
  | JVal.numV q => JVal.numV q
  | JVal.nanV => JVal.nullV
  | JVal.strV s => JVal.strV s
  | JVal.arrV xs => JVal.arrV (sanitizeArr xs)
  | JVal.objV xs => JVal.objV (sanitizeObj xs)

/-- `sanitize_data` on a list: elementwise recursion. -/
def sanitizeArr : JArr → JArr
  | JArr.nil => JArr.nil
  | JArr.cons v tl => JArr.cons (sanitize_data v) (sanitizeArr tl)

/-- `sanitize_data` on a dict: recursion over the values. -/
def sanitizeObj : JObj → JObj
  | JObj.nil => JObj.nil
  | JObj.cons k v tl => JObj.cons k (sanitize_data v) (sanitizeObj tl)
end

mutual
/-- No float NaN occurs anywhere in the value. -/
def nanFree : JVal → Bool
  | JVal.nanV => false
  | JVal.arrV xs => nanFreeArr xs
  | JVal.objV xs => nanFreeObj xs
  | _ => true

/-- No float NaN occurs in the list. -/
def nanFreeArr : JArr → Bool
  | JArr.nil => true
  | JArr.cons v tl => nanFree v && nanFreeArr tl

/-- No float NaN occurs among the dict values. -/
def nanFreeObj : JObj → Bool
  | JObj.nil => true
  | JObj.cons _ v tl => nanFree v && nanFreeObj tl
end

/-!
## Helper lemmas and concrete instances
-/

/-- Empty median tables (no sector data). -/
def noMed : String → Option ℚ := fun _ => none

/-- Day number of 2026-10-12. -/
def d0 : ℤ := daysFromCivil 2026 10 12

/-- Day number of 2026-06-01. -/
def d1 : ℤ := daysFromCivil 2026 6 1

/-- A record matching the hard-reject gate (market cap 1e9 < 2e9, price 5 <
10), the sell gate (price below the 200-day MA, negative trend, low score) and
the earnings-freeze gate (earnings today). -/
def rC1 : Row :=
  { symbol := "PNY", price := some 5, ma50 := some 6, ma200 := some 10,
    trendStrength := some (-1), ret1d := some 0, ret5d := some 0,
    ret1m := some 0, ret6m := some 0, vol6m := none, volume := some 1000000,
    volChg1d := some 0, volChg5d := some 0, marketCap := some 1000000000,
    peRatio := none, sector := some "Tech", earningsDate := some "2026-10-12" }

/-- A record passing the hard-reject gate but matching the sell gate
(price below the 200-day MA) and the earnings-freeze gate. -/
def rSell : Row :=
  { symbol := "SEL", price := some 50, ma50 := some 55, ma200 := some 60,
    trendStrength := some (-2), ret1d := some 0, ret5d := some 0,
    ret1m := some 0, ret6m := some 0, vol6m := none, volume := some 1000000,
    volChg1d := some 0, volChg5d := some 0, marketCap := some 50000000000,
    peRatio := none, sector := some "Tech", earningsDate := some "2026-10-12" }

/-- A strong uptrend record (score 85) with an earnings date of 2026-10-17:
within the freeze window seen from 2026-10-12, far away seen from
2026-06-01. -/
def rC4 : Row :=
  { symbol := "UPT", price := some 50, ma50 := some 48, ma200 := some 40,
    trendStrength := some 20, ret1d := some 1, ret5d := some 2,
    ret1m := some 5, ret6m := some 10, vol6m := none, volume := some 1000000,
    volChg1d := some 60, volChg5d := some 30, marketCap := some 50000000000,
    peRatio := none, sector := some "Tech", earningsDate := some "2026-10-17" }

/-- A record on which scoring raises: `Vol Change 1D = -100` makes the implied
average-volume divisor zero (`ZeroDivisionError`). -/
def rBad : Row :=
  { symbol := "BAD", price := some 50, ma50 := some 48, ma200 := some 40,
    trendStrength := some 20, ret1d := some 1, ret5d := some 2,
    ret1m := some 5, ret6m := some 10, vol6m := none, volume := some 1000,
    volChg1d := some (-100), volChg5d := some 0, marketCap := some 50000000000,
    peRatio := none, sector := some "Tech", earningsDate := none }

mutual
theorem sanitize_data_nanFree : ∀ v : JVal, nanFree (sanitize_data v) = true
  | JVal.nullV => rfl
  | JVal.boolV _ => rfl
  | JVal.numV _ => rfl
  | JVal.nanV => rfl
  | JVal.strV _ => rfl
  | JVal.arrV xs => by
      simp only [sanitize_data, nanFree]
      exact sanitizeArr_nanFree xs
  | JVal.objV xs => by
      simp only [sanitize_data, nanFree]
      exact sanitizeObj_nanFree xs

theorem sanitizeArr_nanFree : ∀ xs : JArr, nanFreeArr (sanitizeArr xs) = true
  | JArr.nil => rfl
  | JArr.cons v tl => by
      simp only [sanitizeArr, nanFreeArr, Bool.and_eq_true]
      exact ⟨sanitize_data_nanFree v, sanitizeArr_nanFree tl⟩

theorem sanitizeObj_nanFree : ∀ xs : JObj, nanFreeObj (sanitizeObj xs) = true
  | JObj.nil => rfl
  | JObj.cons _ v tl => by
      simp only [sanitizeObj, nanFreeObj, Bool.and_eq_true]
      exact ⟨sanitize_data_nanFree v, sanitizeObj_nanFree tl⟩
end

mutual
theorem sanitize_data_id : ∀ v : JVal, nanFree v = true → sanitize_data v = v
  | JVal.nullV, _ => rfl
  | JVal.boolV _, _ => rfl
  | JVal.numV _, _ => rfl
  | JVal.nanV, h => by simp [nanFree] at h
  | JVal.strV _, _ => rfl
  | JVal.arrV xs, h => by
      simp only [nanFree] at h
      simp only [sanitize_data, sanitizeArr_id xs h]
  | JVal.objV xs, h => by
      simp only [nanFree] at h
      simp only [sanitize_data, sanitizeObj_id xs h]

theorem sanitizeArr_id : ∀ xs : JArr, nanFreeArr xs = true → sanitizeArr xs = xs
  | JArr.nil, _ => rfl
  | JArr.cons v tl, h => by
      simp only [nanFreeArr, Bool.and_eq_true] at h
      simp only [sanitizeArr, sanitize_data_id v h.1, sanitizeArr_id tl h.2]

theorem sanitizeObj_id : ∀ xs : JObj, nanFreeObj xs = true → sanitizeObj xs = xs
  | JObj.nil, _ => rfl
  | JObj.cons k v tl, h => by
      simp only [nanFreeObj, Bool.and_eq_true] at h
      simp only [sanitizeObj, sanitize_data_id v h.1, sanitizeObj_id tl h.2]
end

/-- C10: `sanitize_data`, applied recursively to any nesting of dicts, lists,
and scalars, produces a NaN-free result, maps a float NaN to null, and leaves
every NaN-free value unchanged — so the snapshot and sector-summary endpoints
serialize absent metrics as null rather than NaN. -/
theorem C10_sanitize_data_nan_free (v : JVal) :
    nanFree (sanitize_data v) = true ∧
    sanitize_data JVal.nanV = JVal.nullV ∧
    (nanFree v = true → sanitize_data v = v) :=
  ⟨sanitize_data_nanFree v, rfl, sanitize_data_id v⟩

/-- C10 witness: a list containing a NaN is sanitized to a NaN-free list, and
a NaN-free list is returned unchanged. -/
theorem C10_sanitize_data_nan_free_witness :
    nanFree (sanitize_data (JVal.arrV (JArr.cons JVal.nanV JArr.nil))) = true ∧
    sanitize_data (JVal.arrV (JArr.cons (JVal.numV 1) JArr.nil)) =
      JVal.arrV (JArr.cons (JVal.numV 1) JArr.nil) :=
  ⟨(C10_sanitize_data_nan_free (JVal.arrV (JArr.cons JVal.nanV JArr.nil))).1,
   (C10_sanitize_data_nan_free (JVal.arrV (JArr.cons (JVal.numV 1) JArr.nil))).2.2 rfl⟩

/-- C4 counterexample: the decision returned by `calculate_score` depends on
the current date (`datetime.date.today()`), which is not among the claimed
inputs: the same record with earnings date 2026-10-17 and the same median
tables yields "Hold" when scored on 2026-10-12 and "Strong Buy" when scored
on 2026-06-01. -/
theorem C4_counterexample :
    (calculate_score rC4 noMed noMed d0).2 = "Hold" ∧
    (calculate_score rC4 noMed noMed d1).2 = "Strong Buy" ∧
    calculate_score rC4 noMed noMed d0 ≠ calculate_score rC4 noMed noMed d1 := by
  decide

/-- C4 (amended): the scoring engine is a deterministic pure function of the
record, the two sector-median tables, and the current date; for a fixed date
identical inputs yield identical (score, decision), and the numeric score
component does not depend on the date at all (only the decision can). -/
theorem C4_score_deterministic (r : Row) (pm vm : String → Option ℚ)
    (t t2 : ℤ) :
    calculate_score r pm vm t = calculate_score r pm vm t ∧
    (calculate_score r pm vm t).1 = (calculate_score r pm vm t2).1 := by
  refine ⟨rfl, ?_⟩
  unfold calculate_score calculate_score_inner
  cases h : avgVol20E r with
  | error e => simp
  | ok av => simp

/-- C9: an exception while scoring a single record never propagates and never
aborts the batch: the batch scorer returns one result per input row, the
failing record degrades to `(0, "ERROR")`, and every row's result is its own
caught score, independent of the other rows. -/
theorem C9_scoring_fault_isolated (pm vm : String → Option ℚ) (t : ℤ)
    (rows : List Row) (i : ℕ) (r : Row) (h : rows[i]? = some r) :
    (scoreBatch rows pm vm t).length = rows.length ∧
    (scoreBatch rows pm vm t)[i]? = some (calculate_score r pm vm t) ∧
    (calculate_score_inner r pm vm t = Except.error () →
      calculate_score r pm vm t = (0, "ERROR")) := by
  refine ⟨by simp [scoreBatch], ?_, ?_⟩
  · simp [scoreBatch, List.getElem?_map, h]
  · intro he
    simp [calculate_score, he]

/-- C9 witness: a batch whose first record raises (`Vol Change 1D = -100`
makes the step-1 divisor zero) still scores both records; the bad record
degrades to `(0, "ERROR")` and the second record is scored normally. -/
theorem C9_scoring_fault_isolated_witness :
    (scoreBatch [rBad, rC4] noMed noMed d0).length = 2 ∧
    (scoreBatch [rBad, rC4] noMed noMed d0)[0]? =
      some (calculate_score rBad noMed noMed d0) ∧
    calculate_score rBad noMed noMed d0 = (0, "ERROR") := by
  obtain ⟨h1, h2, h3⟩ :=
    C9_scoring_fault_isolated noMed noMed d0 [rBad, rC4] 0 rBad rfl
  exact ⟨h1, h2, h3 rfl⟩

/-- C1 counterexample: a record satisfying both the sell condition (price 5
below the 200-day MA 10, negative trend, score below 45) and the
earnings-freeze condition (earnings date equal to today) but also the
hard-reject condition (market cap 1e9 < 2e9, price < 10) is decided
"Rejected – Universal Filter", not "Sell" as the claim requires. -/
theorem C1_counterexample :
    SellCond rC1 noMed noMed ∧ earningsFreezeB rC1 d0 = true ∧
    (calculate_score rC1 noMed noMed d0).2 = "Rejected – Universal Filter" ∧
    (calculate_score rC1 noMed noMed d0).2 ≠ "Sell" := by
  decide

/-- C1 (amended): the gates are evaluated in the fixed order
reject, sell, earnings-freeze, reduce, strong-buy, buy-small, hold, first
match wins; whenever scoring does not raise, a record matching the hard-reject
condition is decided "Rejected – Universal Filter" (even if strong-buy also
matches), and a record NOT matching hard-reject that matches the sell
condition is decided "Sell" (even if the earnings-freeze also matches). -/
theorem C1_gate_precedence (r : Row) (pm vm : String → Option ℚ) (t : ℤ)
    (av : ℚ) (h : avgVol20E r = Except.ok av) :
    (RejectCond r av →
      (calculate_score r pm vm t).2 = "Rejected – Universal Filter") ∧
    (¬ RejectCond r av → SellCond r pm vm →
      (calculate_score r pm vm t).2 = "Sell") := by
  unfold calculate_score calculate_score_inner
  rw [h]
  constructor
  · intro hr
    simp [decisionOf, hr]
  · intro hn hs
    simp [decisionOf, hn, hs]

/-- C1 witness: the reject+sell+freeze record is rejected; a sell+freeze
record passing the universal filter is decided "Sell". -/
theorem C1_gate_precedence_witness :
    RejectCond rC1 1000000 ∧
    (calculate_score rC1 noMed noMed d0).2 = "Rejected – Universal Filter" ∧
    ¬ RejectCond rSell 1000000 ∧ SellCond rSell noMed noMed ∧
    (calculate_score rSell noMed noMed d0).2 = "Sell" :=
  ⟨by decide,
   (C1_gate_precedence rC1 noMed noMed d0 1000000 rfl).1 (by decide),
   by decide, by decide,
   (C1_gate_precedence rSell noMed noMed d0 1000000 rfl).2 (by decide) (by decide)⟩

theorem chunkGo_flatten (n : Nat) :
    ∀ (fuel : Nat) (l : List α), (chunkGo n fuel l).flatten = l := by
  intro fuel
  induction fuel with
  | zero =>
    intro l
    cases l with
    | nil => rfl
    | cons x xs => simp [chunkGo]
  | succ f ih =>
    intro l
    cases l with
    | nil => rfl
    | cons x xs =>
      simp only [chunkGo, List.flatten_cons, ih (xs.drop (n - 1))]
      simp [List.take_append_drop]

theorem chunkList_flatten (n : Nat) (l : List α) :
    (chunkList n l).flatten = l :=
  chunkGo_flatten n l.length l

theorem chunkGo_countP (n : Nat) (X : String) :
    ∀ (fuel : Nat) (l : List String), l.Nodup →
      (chunkGo n fuel l).countP (fun b => decide (X ∈ b)) =
        if X ∈ l then 1 else 0 := by
  intro fuel
  induction fuel with
  | zero =>
    intro l _
    cases l with
    | nil => simp [chunkGo]
    | cons x xs => simp [chunkGo, List.countP_cons]
  | succ f ih =>
    intro l h
    cases l with
    | nil => simp [chunkGo]
    | cons x xs =>
      have h1 : x ∉ xs := (List.nodup_cons.mp h).1
      have h2 : xs.Nodup := (List.nodup_cons.mp h).2
      have hsplit : xs.take (n - 1) ++ xs.drop (n - 1) = xs :=
        List.take_append_drop _ _
      have hdnodup : (xs.drop (n - 1)).Nodup :=
        (List.drop_sublist _ _).nodup h2
      have hdisj : (xs.take (n - 1)).Disjoint (xs.drop (n - 1)) := by
        have h3 := h2
        rw [← hsplit] at h3
        exact (List.nodup_append.mp h3).2.2
      simp only [chunkGo, List.countP_cons, ih _ hdnodup]
      by_cases hxh : X ∈ x :: xs.take (n - 1) <;>
        by_cases hxd : X ∈ xs.drop (n - 1)
      · exfalso
        rcases List.mem_cons.mp hxh with rfl | hxt
        · exact h1 (List.mem_of_mem_drop hxd)
        · exact hdisj hxt hxd
      · have hmem : X ∈ x :: xs := by
          rcases List.mem_cons.mp hxh with rfl | hxt
          · exact List.mem_cons_self _ _
          · exact List.mem_cons_of_mem _ (hsplit ▸ List.mem_append_left _ hxt)
        simp [hxh, hxd, hmem]
      · have hmem : X ∈ x :: xs :=
          List.mem_cons_of_mem _ (hsplit ▸ List.mem_append_right _ hxd)
        simp [hxh, hxd, hmem]
      · have hmem : X ∉ x :: xs := by
          intro hc
          rcases List.mem_cons.mp hc with rfl | hxt
          · exact hxh (List.mem_cons_self _ _)
          · rw [← hsplit] at hxt
            rcases List.mem_append.mp hxt with h3 | h3
            · exact hxh (List.mem_cons_of_mem _ h3)
            · exact hxd h3
        simp [hxh, hxd, hmem]

theorem chunkList_countP (n : Nat) (X : String) (l : List String)
    (h : l.Nodup) :
    (chunkList n l).countP (fun b => decide (X ∈ b)) =
      if X ∈ l then 1 else 0 :=
  chunkGo_countP n X l.length l h

theorem processHist_symbol (stdFn : List ℚ → ℚ) (s : String) (h : Hist)
    (r : MaRow) (he : processHist stdFn s h = some r) : r.symbol = s := by
  unfold processHist at he
  split at he
  · simp at he
  · injection he with h2
    subst h2
    rfl

theorem maRowsOf_not_mem (tickers : List String)
    (histF : List String → Option (String → Option Hist))
    (stdFn : List ℚ → ℚ) (X : String)
    (hf : ∀ b f, histF b = some f → f X = none) :
    X ∉ (maRowsOf tickers histF stdFn).map MaRow.symbol := by
  intro hX
  rw [List.mem_map] at hX
  obtain ⟨r, hr, hsym⟩ := hX
  rw [maRowsOf, List.mem_flatMap] at hr
  obtain ⟨b, hb, hrb⟩ := hr
  cases hfb : histF b with
  | none => rw [hfb] at hrb; simp at hrb
  | some f =>
    rw [hfb] at hrb
    rw [List.mem_filterMap] at hrb
    obtain ⟨s, hs, hsr⟩ := hrb
    cases hfs : f s with
    | none => rw [hfs] at hsr; simp at hsr
    | some hist =>
      rw [hfs] at hsr
      simp only [Option.some_bind] at hsr
      have hrs : r.symbol = s := processHist_symbol _ _ _ _ hsr
      have hXs : s = X := by rw [← hsym, hrs]
      subst hXs
      rw [hf b f hfb] at hfs
      exact Option.noConfusion hfs

theorem fetch_and_update_data_symbols (tickers : List String)
    (histF : List String → Option (String → Option Hist))
    (fundF : String → Option Fund) (stdFn : List ℚ → ℚ)
    (today : ℤ) (now : String) (cache : List FinalRec)
    (h : (maRowsOf tickers histF stdFn).isEmpty = false) :
    (fetch_and_update_data tickers histF fundF stdFn today now cache).1.map
        FinalRec.symbol =
      (maRowsOf tickers histF stdFn).map MaRow.symbol := by
  simp only [fetch_and_update_data, h, Bool.false_eq_true, if_false,
    List.map_map]
  rfl

theorem fetch_and_update_data_stamped (tickers : List String)
    (histF : List String → Option (String → Option Hist))
    (fundF : String → Option Fund) (stdFn : List ℚ → ℚ)
    (today : ℤ) (now : String) (cache : List FinalRec)
    (h : (maRowsOf tickers histF stdFn).isEmpty = false) (r : FinalRec)
    (hr : r ∈ (fetch_and_update_data tickers histF fundF stdFn today now cache).1) :
    r.lastUpdated = some now := by
  simp only [fetch_and_update_data, h, Bool.false_eq_true, if_false,
    List.map_map, List.mem_map] at hr
  obtain ⟨m, _, hb⟩ := hr
  rw [← hb]
  rfl

theorem alreadyCurrent_iff (data : List FinalRec) (t : String) :
    alreadyCurrent data t = true ↔ FirstRecCurrent data t := by
  constructor
  · intro h
    cases data with
    | nil => simp [alreadyCurrent] at h
    | cons r l =>
      cases hlu : r.lastUpdated with
      | none => rw [alreadyCurrent, hlu] at h; cases h
      | some lu =>
        rw [alreadyCurrent, hlu] at h
        exact ⟨r, l, lu, rfl, hlu, eq_of_beq h⟩
  · rintro ⟨r, l, lu, rfl, hlu, hdp⟩
    rw [alreadyCurrent, hlu]
    simp [hdp]

theorem fetch_and_update_data_log (tickers : List String)
    (histF : List String → Option (String → Option Hist))
    (fundF : String → Option Fund) (stdFn : List ℚ → ℚ)
    (today : ℤ) (now : String) (cache : List FinalRec) :
    (fetch_and_update_data tickers histF fundF stdFn today now cache).2 =
      chunkList 50 tickers := by
  simp only [fetch_and_update_data]
  split <;> rfl

theorem api_refresh_noop (data : List FinalRec) (t : String)
    (h : alreadyCurrent data t = true) (tickers : List String)
    (histF : List String → Option (String → Option Hist))
    (fundF : String → Option Fund) (stdFn : List ℚ → ℚ)
    (today : ℤ) (now : String) :
    api_refresh false data t tickers histF fundF stdFn today now =
      (data, []) := by
  simp [api_refresh, h]

theorem flatMap_filterMap_eq (g : α → Option β) (L : List (List α)) :
    L.flatMap (fun b => b.filterMap g) = L.flatten.filterMap g := by
  induction L with
  | nil => rfl
  | cons b t ih =>
    simp [List.flatMap_cons, List.flatten_cons, List.filterMap_append, ih]

theorem map_symbol_filterMap (stdFn : List ℚ → ℚ) (f : String → Option Hist)
    (l : List String) :
    (l.filterMap (fun s => (f s).bind (processHist stdFn s))).map
        MaRow.symbol =
      l.filter (fun s => ((f s).bind (processHist stdFn s)).isSome) := by
  induction l with
  | nil => rfl
  | cons x t ih =>
    cases hx : (f x).bind (processHist stdFn x) with
    | none => simp [List.filterMap_cons, hx, List.filter_cons, ih]
    | some r =>
      have hrx : r.symbol = x := by
        cases hfx : f x with
        | none => rw [hfx] at hx; simp at hx
        | some hist =>
          rw [hfx] at hx
          simp only [Option.some_bind] at hx
          exact processHist_symbol _ _ _ _ hx
      simp [List.filterMap_cons, hx, List.filter_cons, ih, hrx]

/-- An always-zero stand-in for the abstracted standard deviation. -/
def std0 : List ℚ → ℚ := fun _ => 0

/-- Fundamental fetch that always raises (every record gets `"N/A"`/nulls). -/
def fundF0 : String → Option Fund := fun _ => none

/-- A valid one-year history: 200 closes and 20 volume points. -/
def histY : Hist := ⟨List.replicate 200 1, List.replicate 20 1⟩

/-- History fetch where only symbol "Y" succeeds; every other symbol's data is
missing from every batch download. -/
def histF3 : List String → Option (String → Option Hist) :=
  fun _ => some (fun s => if s = "Y" then some histY else none)

/-- History fetch where every symbol succeeds. -/
def histOK : List String → Option (String → Option Hist) :=
  fun _ => some (fun _ => some histY)

/-- The refresh timestamp used in concrete runs. -/
def now0 : String := "2026-10-12 12:00:00"

/-- A cached record for symbol "X", last updated the previous day. -/
def recX : FinalRec :=
  { symbol := "X", name := "X Corp", sector := "Tech", industry := "Soft",
    price := none, ma50 := 1, ma200 := 1, trendStrength := none,
    ret1d := none, ret5d := none, ret1m := none, ret6m := none, vol6m := none,
    volume := 0, volChg1d := none, volChg5d := none, marketCap := none,
    peRatio := none, earningsDate := none, score := 0, decision := "Hold",
    lastUpdated := some "2026-10-11 09:00:00" }

/-- A record for symbol "X" already updated today (2026-10-12). -/
def recXtoday : FinalRec :=
  { recX with lastUpdated := some "2026-10-12 09:00:00" }

/-- A record for symbol "A", last updated the previous day. -/
def recAold : FinalRec :=
  { recX with symbol := "A", name := "A Corp" }

/-- A snapshot whose FIRST record is stale but whose record for "X" is
current: the most recent update date is today, but not the first record's. -/
def data2 : List FinalRec := [recAold, recXtoday]

/-- C2 counterexample: in snapshot `data2` the record for symbol "X" has
last-updated date equal to today (2026-10-12), yet a non-forced refresh
issues a batch download containing "X" (one call, not zero), because the code
only consults the FIRST record's date, which is stale. -/
theorem C2_counterexample :
    data2.map (fun r => (r.symbol, r.lastUpdated)) =
      [("A", some "2026-10-11 09:00:00"), ("X", some "2026-10-12 09:00:00")] ∧
    datePart "2026-10-12 09:00:00" = "2026-10-12" ∧
    (api_refresh false data2 "2026-10-12" ["A", "X"] histF3 fundF0 std0 0
        now0).2.countP (fun b => decide ("X" ∈ b)) = 1 := by
  decide

/-- C2 (amended): a non-forced refresh skips ALL symbols (zero fetch calls,
snapshot returned unchanged) iff the snapshot is non-empty and its FIRST
record's last-updated date equals today; otherwise every universe symbol is
queued: each symbol's batch is downloaded exactly once, with no per-symbol
skipping. -/
theorem C2_incremental_policy (data : List FinalRec) (todayIso : String)
    (tickers : List String)
    (histF : List String → Option (String → Option Hist))
    (fundF : String → Option Fund) (stdFn : List ℚ → ℚ)
    (today : ℤ) (now : String) :
    (FirstRecCurrent data todayIso →
      api_refresh false data todayIso tickers histF fundF stdFn today now =
        (data, [])) ∧
    (¬ FirstRecCurrent data todayIso → ∀ X ∈ tickers, tickers.Nodup →
      (api_refresh false data todayIso tickers histF fundF stdFn today
          now).2.countP (fun b => decide (X ∈ b)) = 1) := by
  constructor
  · intro hc
    exact api_refresh_noop data todayIso
      ((alreadyCurrent_iff data todayIso).mpr hc) tickers histF fundF stdFn
      today now
  · intro hn X hX hnd
    have hac : alreadyCurrent data todayIso = false := by
      cases h : alreadyCurrent data todayIso
      · rfl
      · exact absurd ((alreadyCurrent_iff _ _).mp h) hn
    simp only [api_refresh, hac, Bool.not_false, Bool.true_and,
      Bool.false_eq_true, if_false]
    rw [fetch_and_update_data_log, chunkList_countP _ _ _ hnd, if_pos hX]

/-- C2 witness: a snapshot whose first record is current short-circuits with
no fetch calls; a stale snapshot leads to exactly one batch download
containing "X". -/
theorem C2_incremental_policy_witness :
    api_refresh false [recXtoday] "2026-10-12" ["A", "X"] histF3 fundF0 std0 0
        now0 = ([recXtoday], []) ∧
    (api_refresh false [recX] "2026-10-12" ["A", "X"] histF3 fundF0 std0 0
        now0).2.countP (fun b => decide ("X" ∈ b)) = 1 := by
  constructor
  · exact (C2_incremental_policy [recXtoday] "2026-10-12" ["A", "X"] histF3
      fundF0 std0 0 now0).1
      ⟨recXtoday, [], "2026-10-12 09:00:00", rfl, rfl, by decide⟩
  · refine (C2_incremental_policy [recX] "2026-10-12" ["A", "X"] histF3
      fundF0 std0 0 now0).2 ?_ "X" (by decide) (by decide)
    rintro ⟨r, l, lu, heq, hlu, hdp⟩
    cases heq
    rw [show recX.lastUpdated = some "2026-10-11 09:00:00" from rfl] at hlu
    injection hlu with h3
    subst h3
    exact absurd hdp (by decide)

/-- C3 counterexample: symbol "X", whose history download always fails, is
attempted exactly once (its batch appears once in the download log), not 3
times; and although a cached record for "X" exists, "X" is absent from the
written snapshot (no fallback to cache) while the surviving symbol "Y" is
kept. -/
theorem C3_counterexample :
    (fetch_and_update_data ["X", "Y"] histF3 fundF0 std0 0 now0
        [recX]).2.countP (fun b => decide ("X" ∈ b)) = 1 ∧
    ¬ (fetch_and_update_data ["X", "Y"] histF3 fundF0 std0 0 now0
        [recX]).2.countP (fun b => decide ("X" ∈ b)) = 3 ∧
    (fetch_and_update_data ["X", "Y"] histF3 fundF0 std0 0 now0
        [recX]).1.map FinalRec.symbol = ["Y"] ∧
    "X" ∈ [recX].map FinalRec.symbol := by
  decide

/-- C3 (amended): each symbol is placed in exactly one download batch and each
batch is downloaded exactly once, so a symbol whose fetch always fails is
attempted exactly once — there is no retry, no backoff, and no distinction
between failure kinds; whenever the cycle produces any data at all, the
failed symbol is dropped from the written snapshot even if a cached record
for it exists. -/
theorem C3_single_attempt_then_drop (tickers : List String)
    (histF : List String → Option (String → Option Hist))
    (fundF : String → Option Fund) (stdFn : List ℚ → ℚ)
    (today : ℤ) (now : String) (cache : List FinalRec) (X : String)
    (hnd : tickers.Nodup) (hX : X ∈ tickers)
    (hf : ∀ b f, histF b = some f → f X = none) :
    (fetch_and_update_data tickers histF fundF stdFn today now
        cache).2.countP (fun b => decide (X ∈ b)) = 1 ∧
    ((maRowsOf tickers histF stdFn).isEmpty = false →
      X ∉ (fetch_and_update_data tickers histF fundF stdFn today now
          cache).1.map FinalRec.symbol) := by
  constructor
  · rw [fetch_and_update_data_log, chunkList_countP _ _ _ hnd, if_pos hX]
  · intro hne
    rw [fetch_and_update_data_symbols _ _ _ _ _ _ _ hne]
    exact maRowsOf_not_mem _ _ _ _ hf

/-- C3 witness: the concrete failing-symbol run, via the general theorem. -/
theorem C3_single_attempt_then_drop_witness :
    (fetch_and_update_data ["X", "Y"] histF3 fundF0 std0 0 now0
        [recX]).2.countP (fun b => decide ("X" ∈ b)) = 1 ∧
    "X" ∉ (fetch_and_update_data ["X", "Y"] histF3 fundF0 std0 0 now0
        [recX]).1.map FinalRec.symbol := by
  obtain ⟨h1, h2⟩ := C3_single_attempt_then_drop ["X", "Y"] histF3 fundF0
    std0 0 now0 [recX] "X" (by decide) (by decide)
    (fun b f hbf => by cases hbf; rfl)
  exact ⟨h1, h2 (by decide)⟩

/-- C7 counterexample: the written snapshot is NOT sorted by symbol and NOT
independent of processing order: processing tickers ["B", "A"] writes the
records in that order, while processing ["A", "B"] writes the other order. -/
theorem C7_counterexample :
    (fetch_and_update_data ["B", "A"] histOK fundF0 std0 0 now0 []).1.map
        FinalRec.symbol = ["B", "A"] ∧
    (fetch_and_update_data ["A", "B"] histOK fundF0 std0 0 now0 []).1.map
        FinalRec.symbol = ["A", "B"] ∧
    (fetch_and_update_data ["B", "A"] histOK fundF0 std0 0 now0 []).1.map
        FinalRec.symbol ≠
      (fetch_and_update_data ["A", "B"] histOK fundF0 std0 0 now0 []).1.map
        FinalRec.symbol := by
  decide

/-- C7 (amended): no sort is applied; the final snapshot lists exactly the
successfully processed symbols in universe (input ticker) order. -/
theorem C7_output_order (tickers : List String) (f : String → Option Hist)
    (fundF : String → Option Fund) (stdFn : List ℚ → ℚ)
    (today : ℤ) (now : String) (cache : List FinalRec)
    (h : (maRowsOf tickers (fun _ => some f) stdFn).isEmpty = false) :
    (fetch_and_update_data tickers (fun _ => some f) fundF stdFn today now
        cache).1.map FinalRec.symbol =
      tickers.filter
        (fun s => ((f s).bind (processHist stdFn s)).isSome) := by
  rw [fetch_and_update_data_symbols _ _ _ _ _ _ _ h]
  rw [maRowsOf]
  rw [flatMap_filterMap_eq (fun s => (f s).bind (processHist stdFn s))
    (chunkList 50 tickers)]
  rw [chunkList_flatten]
  exact map_symbol_filterMap stdFn f tickers

/-- C7 witness: a concrete all-success run keeps input order ["B", "A"]. -/
theorem C7_output_order_witness :
    (fetch_and_update_data ["B", "A"] (fun _ => some (fun _ => some histY))
        fundF0 std0 0 now0 []).1.map FinalRec.symbol =
      ["B", "A"].filter
        (fun s => (((some histY : Option Hist)).bind
          (processHist std0 s)).isSome) := by
  exact C7_output_order ["B", "A"] (fun _ => some histY) fundF0 std0 0 now0 []
    (by decide)

/-- C8 counterexample: in snapshot `data2` the most recent update date equals
today (2026-10-12, carried by the second record), yet a non-forced refresh
does NOT short-circuit: it issues a batch download and does not return the
"already current" no-op, because only the FIRST record's date is consulted. -/
theorem C8_counterexample :
    mostRecentDate data2 = some "2026-10-12" ∧
    alreadyCurrent data2 "2026-10-12" = false ∧
    api_refresh false data2 "2026-10-12" ["A", "X"] histF3 fundF0 std0 0 now0
        ≠ (data2, []) := by
  decide

/-- C8 (amended): a non-forced refresh short-circuits iff the FIRST record's
last-updated date equals today; and since a completed refresh stamps every
record with the refresh timestamp, running a second non-forced refresh on the
resulting snapshot the same day is a no-op returning it unchanged with no
fetch calls. -/
theorem C8_same_day_idempotent (data : List FinalRec) (todayIso : String)
    (tickers tickers2 : List String)
    (histF histF2 : List String → Option (String → Option Hist))
    (fundF fundF2 : String → Option Fund) (stdFn stdFn2 : List ℚ → ℚ)
    (today today2 : ℤ) (now now2 : String)
    (hne : (maRowsOf tickers histF stdFn).isEmpty = false)
    (hdate : datePart now = todayIso) :
    (alreadyCurrent data todayIso = true ↔ FirstRecCurrent data todayIso) ∧
    api_refresh false
        (fetch_and_update_data tickers histF fundF stdFn today now data).1
        todayIso tickers2 histF2 fundF2 stdFn2 today2 now2 =
      ((fetch_and_update_data tickers histF fundF stdFn today now data).1,
        []) := by
  refine ⟨alreadyCurrent_iff data todayIso, ?_⟩
  apply api_refresh_noop
  rw [alreadyCurrent_iff]
  cases hm : maRowsOf tickers histF stdFn with
  | nil => rw [hm] at hne; simp at hne
  | cons m t =>
    have hout : ∃ r l,
        (fetch_and_update_data tickers histF fundF stdFn today now data).1 =
          r :: l ∧ r.lastUpdated = some now := by
      simp only [fetch_and_update_data, hm, List.isEmpty_cons,
        Bool.false_eq_true, if_false, List.map_cons]
      exact ⟨_, _, rfl, rfl⟩
    obtain ⟨r, l, hrl, hlu⟩ := hout
    exact ⟨r, l, now, hrl, hlu, hdate⟩

/-- C8 witness: a concrete refresh on 2026-10-12 followed by a second
non-forced refresh the same day: the second run returns the snapshot
unchanged with zero fetch calls. -/
theorem C8_same_day_idempotent_witness :
    api_refresh false
        (fetch_and_update_data ["Y"] histF3 fundF0 std0 0 now0 [recX]).1
        "2026-10-12" ["Y"] histF3 fundF0 std0 0 now0 =
      ((fetch_and_update_data ["Y"] histF3 fundF0 std0 0 now0 [recX]).1,
        []) := by
  exact (C8_same_day_idempotent [recX] "2026-10-12" ["Y"] ["Y"] histF3 histF3
    fundF0 fundF0 std0 std0 0 0 now0 now0 (by decide) (by decide)).2

/-- C5 counterexample: a history of 60 daily closes (at least 50, fewer than
200) is dropped by the bulk fetcher of `fetch_and_update_data`
(`if len(close) < 200 or len(volume) < 20: continue`): no record is
produced, contradicting the claimed 50-close threshold. -/
theorem C5_counterexample :
    50 ≤ (List.replicate 60 (1 : ℚ)).length ∧
    processHist std0 "A" ⟨List.replicate 60 1, List.replicate 20 1⟩ =
      none := by
  decide

/-- C5 (amended): the bulk fetcher of `fetch_and_update_data` requires at
least 200 daily closes AND at least 20 volume points, dropping the symbol for
the cycle otherwise; the standalone fetcher `get_stock_data`
(fetch_sp500.py) is the one with the 50-close threshold, and there the
200-day MA and trend strength are computed only when 200 closes exist,
otherwise left absent without failing the record. -/
theorem C5_history_thresholds :
    (∀ (stdFn : List ℚ → ℚ) (s : String) (h : Hist),
      (processHist stdFn s h).isSome = true ↔
        (200 ≤ h.closes.length ∧ 20 ≤ h.volumes.length)) ∧
    (∀ (sym name sec ind : String) (closes : List ℚ)
      (pe mcap : Option ℚ) (d : String),
      ((get_stock_data sym name sec ind closes pe mcap d).isSome = true ↔
        50 ≤ closes.length) ∧
      (50 ≤ closes.length → closes.length < 200 →
        ∃ r, get_stock_data sym name sec ind closes pe mcap d = some r ∧
          r.ma200 = none ∧ r.trendStrength = none)) := by
  constructor
  · intro stdFn s h
    unfold processHist
    split
    · rename_i hc
      simp only [Option.isSome_none, Bool.false_eq_true, false_iff]
      omega
    · rename_i hc
      simp only [Option.isSome_some, true_iff]
      omega
  · intro sym name sec ind closes pe mcap d
    constructor
    · unfold get_stock_data
      split
      · rename_i hc
        simp only [Option.isSome_none, Bool.false_eq_true, false_iff]
        omega
      · rename_i hc
        simp only [Option.isSome_some, true_iff]
        omega
    · intro h50 h200
      unfold get_stock_data
      rw [if_neg (by omega : ¬ closes.length < 50)]
      refine ⟨_, rfl, ?_, ?_⟩ <;>
        simp only [if_neg (by omega : ¬ 200 ≤ closes.length)]

/-- C5 witness: a 200-close history produces a record; a 60-close history is
accepted by `get_stock_data` with the 200-day MA and trend strength absent. -/
theorem C5_history_thresholds_witness :
    (processHist std0 "A" histY).isSome = true ∧
    ∃ r, get_stock_data "A" "A Corp" "Tech" "Soft" (List.replicate 60 1)
        none none "2026-10-12" = some r ∧
      r.ma200 = none ∧ r.trendStrength = none := by
  constructor
  · exact (C5_history_thresholds.1 std0 "A" histY).mpr (by decide)
  · exact (C5_history_thresholds.2 "A" "A Corp" "Tech" "Soft"
      (List.replicate 60 1) none none "2026-10-12").2 (by decide) (by decide)

/-- C6 counterexample: market caps 10 and 20 with P/Es 20 and 10 give
Σ(P/E × cap)/Σ(cap) = 400/30 = 40/3, but the sector summary stores the value
rounded to two decimals, 13.33 ≠ 40/3, so the claimed exact equality fails. -/
theorem C6_counterexample :
    weighted_pe [(some 20, some 10), (some 10, some 20)] =
      some (1333 / 100) ∧
    weightedPeRaw [(some 20, some 10), (some 10, some 20)] = 40 / 3 ∧
    (1333 : ℚ) / 100 ≠ 40 / 3 := by
  decide

theorem totalMcap_of_no_null : ∀ (grp : List (Option ℚ × Option ℚ)),
    (∀ p ∈ grp, p.2 ≠ none) →
    totalMcap grp = some ((grp.filterMap Prod.snd).sum)
  | [], _ => by simp [totalMcap]
  | p :: t, h => by
    cases hp : p.2 with
    | none => exact absurd hp (h p (List.mem_cons_self _ _))
    | some a =>
      have ht := totalMcap_of_no_null t
        (fun q hq => h q (List.mem_cons_of_mem _ hq))
      simp only [totalMcap, List.map_cons, List.foldr_cons] at ht ⊢
      rw [hp, ht]
      simp [List.filterMap_cons, hp]

theorem totalMcap_of_null : ∀ (grp : List (Option ℚ × Option ℚ))
    (p : Option ℚ × Option ℚ), p ∈ grp → p.2 = none → totalMcap grp = none
  | q :: t, p, hp, hnull => by
    simp only [totalMcap, List.map_cons, List.foldr_cons]
    rcases List.mem_cons.mp hp with rfl | hpt
    · rw [hnull]
    · have ht : totalMcap t = none := totalMcap_of_null t p hpt hnull
      simp only [totalMcap] at ht
      rw [ht]
      cases q.2 <;> rfl

theorem weighted_pe_none_of_not_pos (grp : List (Option ℚ × Option ℚ))
    (h : mcapPos grp = false) : weighted_pe grp = none := by
  rw [weighted_pe, if_neg]
  intro hc
  rw [h] at hc
  exact Bool.false_ne_true hc.2

/-- C6 (amended): for every group of records of one sector, the summary's
weighted P/E equals Σ(P/E × market cap)/Σ(market cap) over exactly the
both-non-null subset, ROUNDED to two decimals, provided every market cap in
the group is non-null, that subset is non-empty, the total market cap is
positive, and the unrounded value is non-zero (Python truthiness turns an
exactly-zero weighted P/E into null); the value is null whenever any
record's market cap is null (the null becomes NaN in the pandas column,
passes the `is not None` filter, and poisons `total_mcap`, so the `> 0`
guard fails) and whenever the total market cap is not positive; no input
ever divides by zero or crashes on null fields (the function is total). -/
theorem C6_weighted_pe_rounded (grp : List (Option ℚ × Option ℚ)) :
    ((∀ p ∈ grp, p.2 ≠ none) → peSubset grp ≠ [] →
      0 < (grp.filterMap Prod.snd).sum → weightedPeRaw grp ≠ 0 →
      weighted_pe grp = some (pyRound2 (weightedPeRaw grp))) ∧
    ((∃ p ∈ grp, p.2 = none) → weighted_pe grp = none) ∧
    ((grp.filterMap Prod.snd).sum ≤ 0 → weighted_pe grp = none) := by
  refine ⟨?_, ?_, ?_⟩
  · intro hnull h1 h2 h3
    have hpos : mcapPos grp = true := by
      simp only [mcapPos, totalMcap_of_no_null grp hnull]
      simpa using h2
    rw [weighted_pe, if_pos ⟨by simpa [List.isEmpty_iff] using h1,
      by rw [hpos]⟩, if_neg h3]
  · rintro ⟨p, hp, hn⟩
    refine weighted_pe_none_of_not_pos grp ?_
    simp only [mcapPos, totalMcap_of_null grp p hp hn]
  · intro hle
    by_cases hex : ∃ p ∈ grp, p.2 = none
    · obtain ⟨p, hp, hn⟩ := hex
      refine weighted_pe_none_of_not_pos grp ?_
      simp only [mcapPos, totalMcap_of_null grp p hp hn]
    · push_neg at hex
      refine weighted_pe_none_of_not_pos grp ?_
      simp only [mcapPos, totalMcap_of_no_null grp hex,
        decide_eq_false_iff_not]
      exact not_lt.mpr hle

/-- C6 witness: the spec's example — caps 10 and 30, P/Es 20 and 10, no null
fields — gives weighted P/E (20·10+10·30)/40 = 12.5, unchanged by rounding;
a group containing one null market cap gives null (NaN-poisoned total); an
empty group gives null. -/
theorem C6_weighted_pe_rounded_witness :
    weighted_pe [(some 20, some 10), (some 10, some 30)] =
      some (pyRound2 (weightedPeRaw [(some 20, some 10), (some 10, some 30)])) ∧
    weightedPeRaw [(some 20, some 10), (some 10, some 30)] = 25 / 2 ∧
    pyRound2 (25 / 2) = 25 / 2 ∧
    weighted_pe [(some 20, some 10), (some 5, none)] = none ∧
    weighted_pe [] = none := by
  refine ⟨(C6_weighted_pe_rounded _).1 (by decide) (by decide) (by decide)
      (by decide),
    by decide, by decide,
    (C6_weighted_pe_rounded [(some 20, some 10), (some 5, none)]).2.1
      ⟨(some 5, none), by decide, rfl⟩,
    (C6_weighted_pe_rounded []).2.2 (by decide)⟩
